import Mathlib

/-!
# Verification of the Strava MCP client (`strava.py`)

A shallow embedding of the token-refresh wrapper, the paginated activity
queries and the tool-dispatch layer of `strava.py`, together with theorems
settling the specified properties.

Modelling conventions:

* Wall-clock time and unix timestamps are integers (seconds).
* The outside world seen by one call is an `Env`: the current time, the
  response the token endpoint would give, and the responses of the three
  data endpoints as functions of the request parameters.
* Python's in-place mutation of the client object is explicit state
  passing: every operation returns the client as it stands after the call
  (also when an exception was raised mid-way), the raised exception or the
  returned value as an `Except`, and the list of HTTP requests issued, in
  order, as a `List Event`.
* A raised Python exception is a `PyError` holding the Python class name
  (`Exception`, `ValueError`) and the message.
* Python truthiness tests (`if before:`, `if activity_type:`,
  `if a.get("type")`) are modelled by `truthyInt` / `truthyStr`.
-/

namespace Strava

/-- An activity record as returned by the upstream API: an identifying
payload and the `"type"` field (`a.get("type")`, absent ⇒ `none`). -/
structure Activity where
  payload : Nat
  type : Option String
  deriving DecidableEq, Repr

/-- Response of `POST https://www.strava.com/oauth/token`. The json fields
`access_token`, `refresh_token`, `expires_at` are only read on status 200. -/
structure TokenResponse where
  status_code : Nat
  access_token : String
  refresh_token : String
  expires_at : Int
  text : String
  deriving DecidableEq, Repr

/-- Response of `GET /athlete/activities`: the parsed json body is a list of
activities; `text` is the raw body used in error messages. -/
structure ListResponse where
  status_code : Nat
  body : List Activity
  text : String
  deriving DecidableEq, Repr

/-- Response of `GET /athlete` or `GET /activities/{id}`: the parsed json
body is kept as an uninterpreted string. -/
structure JsonResponse where
  status_code : Nat
  body : String
  text : String
  deriving DecidableEq, Repr

/-- The outside world during one call: `time.time()`, the timezone offset
used by `datetime.timestamp()` for naive datetimes, and the upstream
endpoints as functions of the request parameters
(per_page, page, before, after for the activities endpoint). -/
structure Env where
  current_time : Int
  tzOffset : Int
  tokenResponse : TokenResponse
  activitiesAPI : Int → Int → Option Int → Option Int → ListResponse
  athleteResponse : JsonResponse
  activityAPI : String → JsonResponse

/-- The mutable state of a `StravaClient` object (`__init__`, lines 16-22). -/
structure StravaClient where
  access_token : String
  refresh_token : String
  client_id : String
  client_secret : String
  token_expires_at : Int
  base_url : String
  deriving DecidableEq, Repr

/-- `StravaClient.__init__`: stores the four credentials and initialises
`token_expires_at` to 0. -/
def StravaClient.init (access_token refresh_token client_id client_secret : String) :
    StravaClient :=
  ⟨access_token, refresh_token, client_id, client_secret, 0,
    "https://www.strava.com/api/v3"⟩

/-- One outbound HTTP request, with the data that identifies it: the bearer
token sent and the query parameters. -/
inductive Event where
  | tokenPost
  | activitiesGet (bearer : String) (per_page : Int) (page : Int)
      (before : Option Int) (after : Option Int)
  | athleteGet (bearer : String)
  | activityGet (bearer : String) (activity_id : String)
  deriving DecidableEq, Repr

/-- A raised Python exception: class name and message. -/
structure PyError where
  etype : String
  msg : String
  deriving DecidableEq, Repr

/-- The complete effect of one operation: the client state afterwards, the
value returned or the exception raised, and the HTTP requests issued. -/
structure Outcome (α : Type) where
  client : StravaClient
  res : Except PyError α
  trace : List Event

/-- Python truthiness of an optional integer (`if before:`): `0` and `None`
are falsy. -/
def truthyInt : Option Int → Option Int
  | some v => if v = 0 then none else some v
  | none => none

/-- Python truthiness of an optional string (`if activity_type:`): `""` and
`None` are falsy. -/
def truthyStr : Option String → Option String
  | some s => if s = "" then none else some s
  | none => none

/-- `StravaClient.refresh_access_token_if_needed` (lines 24-42): if
`time.time() >= token_expires_at - 300`, POST the token endpoint; on 200
replace the three credential fields, otherwise raise
`Exception("Failed to refresh token: " + response.text)`. -/
def refresh_access_token_if_needed (env : Env) (c : StravaClient) : Outcome Unit :=
  if env.current_time ≥ c.token_expires_at - 300 then
    let response := env.tokenResponse
    if response.status_code = 200 then
      ⟨{ c with access_token := response.access_token,
                refresh_token := response.refresh_token,
                token_expires_at := response.expires_at },
        .ok (), [.tokenPost]⟩
    else
      ⟨c, .error ⟨"Exception", "Failed to refresh token: " ++ response.text⟩,
        [.tokenPost]⟩
  else ⟨c, .ok (), []⟩

/-- `StravaClient.get_activities` (lines 47-89): refresh if needed, GET
`/athlete/activities` with `per_page`, `page` and the truthy `before` /
`after` parameters, raise on non-200, else filter client-side by
`activity_type`. -/
def get_activities (env : Env) (c : StravaClient) (limit : Int)
    (before after : Option Int) (activity_type : Option String) (page : Int) :
    Outcome (List Activity) :=
  let r := refresh_access_token_if_needed env c
  match r.res with
  | .error e => ⟨r.client, .error e, r.trace⟩
  | .ok _ =>
    let beforeP := truthyInt before
    let afterP := truthyInt after
    let response := env.activitiesAPI limit page beforeP afterP
    let ev := Event.activitiesGet r.client.access_token limit page beforeP afterP
    if response.status_code ≠ 200 then
      ⟨r.client,
        .error ⟨"Exception", "Failed to fetch activities: " ++ response.text⟩,
        r.trace ++ [ev]⟩
    else
      let activities := response.body
      let activities :=
        match truthyStr activity_type with
        | some t => activities.filter fun a => decide (a.type = some t)
        | none => activities
      ⟨r.client, .ok activities, r.trace ++ [ev]⟩

/-- Days from 1970-01-01 to the civil date y-m-d (proleptic Gregorian). -/
def daysFromCivil (y m d : Int) : Int :=
  let y := if m ≤ 2 then y - 1 else y
  let era := (if 0 ≤ y then y else y - 399) / 400
  let yoe := y - era * 400
  let doy := (153 * (if 2 < m then m - 3 else m + 9) + 2) / 5 + d - 1
  let doe := yoe * 365 + yoe / 4 - yoe / 100 + doy
  era * 146097 + doe - 719468

/-- Length of month `m` of year `y`. -/
def daysInMonth (y m : Nat) : Nat :=
  if m = 2 then (if (y % 4 = 0 ∧ y % 100 ≠ 0) ∨ y % 400 = 0 then 29 else 28)
  else if m = 4 ∨ m = 6 ∨ m = 9 ∨ m = 11 then 30 else 31

/-- Split a character list at every `'-'`, like `str.split('-')`. -/
def splitDash : List Char → List (List Char)
  | [] => [[]]
  | c :: rest =>
    if c = '-' then [] :: splitDash rest
    else
      match splitDash rest with
      | [] => [[c]]
      | g :: gs => (c :: g) :: gs

/-- Decimal value of a non-empty all-digit character list. -/
def natOfDigits? (cs : List Char) : Option Nat :=
  if cs.isEmpty then none
  else cs.foldl (fun acc c =>
    acc.bind fun n => if c.isDigit then some (n * 10 + (c.toNat - 48)) else none)
    (some 0)

/-- Parse of `datetime.strptime(s, "%Y-%m-%d")`: year, month, day, with the
range checks strptime performs. -/
def parseDate (s : String) : Option (Nat × Nat × Nat) :=
  match splitDash s.data with
  | [ys, ms, ds] =>
    match natOfDigits? ys, natOfDigits? ms, natOfDigits? ds with
    | some y, some m, some d =>
      if 1 ≤ m ∧ m ≤ 12 ∧ 1 ≤ d ∧ d ≤ daysInMonth y m then some (y, m, d)
      else none
    | _, _, _ => none
  | _ => none

/-- `datetime(y, m, d).timestamp()` for a naive datetime: midnight of the
civil date in the environment's local timezone, as epoch seconds. -/
def timestampOfCivil (env : Env) (y m d : Nat) : Int :=
  daysFromCivil y m d * 86400 + env.tzOffset

/-- `int(datetime.strptime(s, "%Y-%m-%d").timestamp())`, `none` when
strptime raises `ValueError`. -/
def dateToEpoch (env : Env) (s : String) : Option Int :=
  (parseDate s).map fun x => timestampOfCivil env x.1 x.2.1 x.2.2

/-- The `[after, before)` window computed at lines 104-105 and 122-123:
`after` is the epoch of the start date, `before` the epoch of the end date
plus 86400 seconds ("Add a day to include the end date"). -/
def dateWindow (env : Env) (start_date end_date : String) : Option (Int × Int) :=
  match dateToEpoch env start_date, dateToEpoch env end_date with
  | some a, some b => some (a, b + 86400)
  | _, _ => none

/-- The `ValueError` strptime raises on a malformed date string. -/
def strptimeError : PyError :=
  ⟨"ValueError", "time data does not match format"⟩

/-- `StravaClient.get_activities_by_date_range` (lines 91-107): convert the
dates, delegate to a single-page `get_activities` with `page = 1`. -/
def get_activities_by_date_range (env : Env) (c : StravaClient)
    (start_date end_date : String) (limit : Int) (activity_type : Option String) :
    Outcome (List Activity) :=
  match dateWindow env start_date end_date with
  | some (a, b) => get_activities env c limit (some b) (some a) activity_type 1
  | none => ⟨c, .error strptimeError, []⟩

/-- The pagination loop of `get_all_activities_by_date_range`
(lines 125-143), with the remaining iterations of `while page <= max_pages`
as fuel: fetch a raw page of 100 with no server-side type filter, break on
an empty raw page, filter locally by `activity_type`, accumulate, break when
the filtered page has fewer than 100 entries. -/
def get_all_pages (env : Env) (before after : Int) (activity_type : Option String) :
    StravaClient → Int → Nat → Outcome (List Activity)
  | c, _, 0 => ⟨c, .ok [], []⟩
  | c, page, fuel + 1 =>
    let r := get_activities env c 100 (some before) (some after) none page
    match r.res with
    | .error e => ⟨r.client, .error e, r.trace⟩
    | .ok activities =>
      if activities.isEmpty then ⟨r.client, .ok [], r.trace⟩
      else
        let filtered :=
          match truthyStr activity_type with
          | some t => activities.filter fun a => decide (a.type = some t)
          | none => activities
        if filtered.length < 100 then ⟨r.client, .ok filtered, r.trace⟩
        else
          let rest := get_all_pages env before after activity_type r.client (page + 1) fuel
          ⟨rest.client, rest.res.map fun l => filtered ++ l, r.trace ++ rest.trace⟩

/-- `StravaClient.get_all_activities_by_date_range` (lines 109-143). -/
def get_all_activities_by_date_range (env : Env) (c : StravaClient)
    (start_date end_date : String) (activity_type : Option String) (max_pages : Int) :
    Outcome (List Activity) :=
  match dateWindow env start_date end_date with
  | some (a, b) => get_all_pages env b a activity_type c 1 max_pages.toNat
  | none => ⟨c, .error strptimeError, []⟩

/-- `StravaClient.get_activity_types` (lines 145-151): one page of 200
recent activities, then `list(set(...))` over the truthy `type` values. -/
def get_activity_types (env : Env) (c : StravaClient) : Outcome (List String) :=
  let r := get_activities env c 200 none none none 1
  match r.res with
  | .error e => ⟨r.client, .error e, r.trace⟩
  | .ok activities =>
    ⟨r.client, .ok ((activities.filterMap fun a => truthyStr a.type).dedup), r.trace⟩

/-- `StravaClient.get_athlete` (lines 153-157): refresh if needed, GET
`/athlete`, return `response.json()` with no status check. -/
def get_athlete (env : Env) (c : StravaClient) : Outcome String :=
  let r := refresh_access_token_if_needed env c
  match r.res with
  | .error e => ⟨r.client, .error e, r.trace⟩
  | .ok _ =>
    let response := env.athleteResponse
    ⟨r.client, .ok response.body, r.trace ++ [.athleteGet r.client.access_token]⟩

/-- `StravaClient.get_activity_by_id` (lines 159-177): refresh if needed,
GET `/activities/{id}`, raise on non-200, else return the body. -/
def get_activity_by_id (env : Env) (c : StravaClient) (activity_id : String) :
    Outcome String :=
  let r := refresh_access_token_if_needed env c
  match r.res with
  | .error e => ⟨r.client, .error e, r.trace⟩
  | .ok _ =>
    let response := env.activityAPI activity_id
    let ev := Event.activityGet r.client.access_token activity_id
    if response.status_code ≠ 200 then
      ⟨r.client,
        .error ⟨"Exception", "Failed to fetch activity: " ++ response.text⟩,
        r.trace ++ [ev]⟩
    else ⟨r.client, .ok response.body, r.trace ++ [ev]⟩

/-- The `ValueError("Strava client not initialized. Check server logs.")`
raised by every tool when the global client is `None`. -/
def notInitializedError : PyError :=
  ⟨"ValueError", "Strava client not initialized. Check server logs."⟩

/-- Tool `get_recent_activities(limit)` (lines 206-214): `ValueError` when
the global client is `None`, else one `get_activities` page with defaults. -/
def get_recent_activities (env : Env) (client : Option StravaClient) (limit : Int) :
    Except PyError (List Activity) × List Event :=
  match client with
  | none => (.error notInitializedError, [])
  | some c =>
    let r := get_activities env c limit none none none 1
    (r.res, r.trace)

/-- Tool `get_activities_by_date_range(start_date, end_date, activity_type)`
(lines 216-238), with the method's default `limit = 100`. -/
def tool_get_activities_by_date_range (env : Env) (client : Option StravaClient)
    (start_date end_date : String) (activity_type : Option String) :
    Except PyError (List Activity) × List Event :=
  match client with
  | none => (.error notInitializedError, [])
  | some c =>
    let r := get_activities_by_date_range env c start_date end_date 100 activity_type
    (r.res, r.trace)

/-- Tool `get_all_activities_in_year(year, activity_type)` (lines 240-264):
builds the date strings and delegates with the default `max_pages = 10`. -/
def get_all_activities_in_year (env : Env) (client : Option StravaClient)
    (year : Int) (activity_type : Option String) :
    Except PyError (List Activity) × List Event :=
  match client with
  | none => (.error notInitializedError, [])
  | some c =>
    let r := get_all_activities_by_date_range env c
      (toString year ++ "-01-01") (toString year ++ "-12-31") activity_type 10
    (r.res, r.trace)

/-- Tool `get_available_activity_types()` (lines 266-279). -/
def get_available_activity_types (env : Env) (client : Option StravaClient) :
    Except PyError (List String) × List Event :=
  match client with
  | none => (.error notInitializedError, [])
  | some c =>
    let r := get_activity_types env c
    (r.res, r.trace)

/-- Tool `get_athlete_profile()` (lines 281-290). -/
def get_athlete_profile (env : Env) (client : Option StravaClient) :
    Except PyError String × List Event :=
  match client with
  | none => (.error notInitializedError, [])
  | some c =>
    let r := get_athlete env c
    (r.res, r.trace)

/-- Tool `get_activity_details(activity_id)` (lines 292-308). -/
def get_activity_details (env : Env) (client : Option StravaClient)
    (activity_id : String) : Except PyError String × List Event :=
  match client with
  | none => (.error notInitializedError, [])
  | some c =>
    let r := get_activity_by_id env c activity_id
    (r.res, r.trace)

/-! ## Trace observers -/

/-- Number of `POST /oauth/token` requests in a trace. -/
def countTokenPosts : List Event → Nat
  | [] => 0
  | .tokenPost :: tr => countTokenPosts tr + 1
  | _ :: tr => countTokenPosts tr

/-- Number of data (GET) requests in a trace. -/
def countFetches : List Event → Nat
  | [] => 0
  | .tokenPost :: tr => countFetches tr
  | _ :: tr => countFetches tr + 1

/-- The bearer tokens of the data requests of a trace, in order. -/
def fetchBearers : List Event → List String
  | [] => []
  | .tokenPost :: tr => fetchBearers tr
  | .activitiesGet b _ _ _ _ :: tr => b :: fetchBearers tr
  | .athleteGet b :: tr => b :: fetchBearers tr
  | .activityGet b _ :: tr => b :: fetchBearers tr

/-- The `per_page` parameters of the activities requests of a trace. -/
def fetchPerPages : List Event → List Int
  | [] => []
  | .activitiesGet _ pp _ _ _ :: tr => pp :: fetchPerPages tr
  | _ :: tr => fetchPerPages tr

/-- The `page` parameters of the activities requests of a trace. -/
def fetchPages : List Event → List Int
  | [] => []
  | .activitiesGet _ _ p _ _ :: tr => p :: fetchPages tr
  | _ :: tr => fetchPages tr

/-- The length of the returned list, when the operation returned. -/
def okLength {α : Type} (r : Except PyError (List α)) : Option Nat :=
  match r with
  | .ok l => some l.length
  | .error _ => none

/-- The Python class of the raised exception, when one was raised. -/
def errType {α : Type} (r : Except PyError α) : Option String :=
  match r with
  | .ok _ => none
  | .error e => some e.etype

/-! ## Concrete fixtures used by witnesses and counterexamples -/

/-- A freshly constructed client holding the environment-supplied tokens. -/
def cW : StravaClient := StravaClient.init "envAccess" "envRefresh" "id123" "secret456"

/-- A successful token-endpoint response. -/
def tokenOkW : TokenResponse := ⟨200, "freshAccess", "freshRefresh", 2000000, "okbody"⟩

/-- A failing token-endpoint response. -/
def tokenBadW : TokenResponse := ⟨401, "", "", 0, "bad refresh body"⟩

/-- A world where every endpoint succeeds. -/
def envOkW : Env :=
  ⟨1000, 0, tokenOkW,
    fun _ _ _ _ => ⟨200, [⟨1, some "Run"⟩, ⟨2, some "Run"⟩, ⟨3, none⟩], "ok"⟩,
    ⟨200, "athlete-body", "ok"⟩,
    fun _ => ⟨200, "activity-body", "ok"⟩⟩

/-- A world where the token endpoint fails. -/
def envAuthFailW : Env :=
  ⟨1000, 0, tokenBadW,
    fun _ _ _ _ => ⟨200, [], "ok"⟩,
    ⟨200, "athlete-body", "ok"⟩,
    fun _ => ⟨200, "activity-body", "ok"⟩⟩

/-- A world where the token endpoint succeeds but every data endpoint
returns status 500. -/
def envFetchFailW : Env :=
  ⟨1000, 0, tokenOkW,
    fun _ _ _ _ => ⟨500, [], "activities boom"⟩,
    ⟨500, "athlete-error-body", "athlete boom"⟩,
    fun _ => ⟨500, "", "activity boom"⟩⟩

/-- The raised exception, when one was raised. -/
def errOf {α : Type} (r : Except PyError α) : Option PyError :=
  match r with
  | .ok _ => none
  | .error e => some e

/-! ## Helpers for the pagination characterisation -/

/-- The raw body the activities endpoint returns for page `p` of the
pagination loop (which always requests `per_page = 100` and passes the
window through Python truthiness). -/
def rawPage (env : Env) (before after : Int) (p : Int) : List Activity :=
  (env.activitiesAPI 100 p (truthyInt (some before)) (truthyInt (some after))).body

/-- The page `p` body after the loop's client-side type filter. -/
def filteredPage (env : Env) (before after : Int) (activity_type : Option String)
    (p : Int) : List Activity :=
  match truthyStr activity_type with
  | some t => (rawPage env before after p).filter fun a => decide (a.type = some t)
  | none => rawPage env before after p

/-- The status code the activities endpoint returns for page `p` of the
pagination loop. -/
def rawPageStatus (env : Env) (before after : Int) (p : Int) : Nat :=
  (env.activitiesAPI 100 p (truthyInt (some before)) (truthyInt (some after))).status_code

/-- Modelled from the spec: the pagination loop as §4.2 words it —
"repeatedly fetches pages (fixed page size 100) advancing `page` until
either an empty page is returned, a page with fewer than 100 results is
returned (short page ⇒ last page), or `max_pages` is reached", filtering
each page by type before accumulating. Both break conditions are checked on
the page as returned, before the filter. Returns the accumulated list and
the number of page fetches issued. -/
def spec_list_all_activities (env : Env) (before after : Int)
    (activity_type : Option String) : Int → Nat → List Activity × Nat
  | _, 0 => ([], 0)
  | page, fuel + 1 =>
    let raw := rawPage env before after page
    if raw.isEmpty then ([], 1)
    else
      let filtered :=
        match truthyStr activity_type with
        | some t => raw.filter fun a => decide (a.type = some t)
        | none => raw
      if raw.length < 100 then (filtered, 1)
      else
        let rest := spec_list_all_activities env before after activity_type (page + 1) fuel
        (filtered ++ rest.1, rest.2 + 1)

/-! ## Concrete scenario worlds -/

/-- A page of `n` activities of type `t`, tagged by page number. -/
def mkPage (p n : Nat) (t : Option String) : List Activity :=
  (List.range n).map fun i => ⟨p * 1000 + i, t⟩

/-- The C6 scenario upstream: pages 1-3 hold 100 activities each, page 4
holds 40, later pages are empty; every endpoint succeeds. -/
def envC6 : Env :=
  ⟨1000, 0, tokenOkW,
    fun _ p _ _ =>
      if p ≤ 3 then ⟨200, mkPage p.toNat 100 (some "Run"), "ok"⟩
      else if p = 4 then ⟨200, mkPage 4 40 (some "Run"), "ok"⟩
      else ⟨200, [], "ok"⟩,
    ⟨200, "athlete-body", "ok"⟩,
    fun _ => ⟨200, "activity-body", "ok"⟩⟩

/-- The C2 counterexample upstream: page 1 returns a full raw page of 100
activities of which only the first 40 are of type "Run"; page 2 returns 40
"Run" activities; later pages are empty. -/
def envC2 : Env :=
  ⟨1000, 0, tokenOkW,
    fun _ p _ _ =>
      if p = 1 then ⟨200, mkPage 1 40 (some "Run") ++ mkPage 1 60 (some "Ride"), "ok"⟩
      else if p = 2 then ⟨200, mkPage 2 40 (some "Run"), "ok"⟩
      else ⟨200, [], "ok"⟩,
    ⟨200, "athlete-body", "ok"⟩,
    fun _ => ⟨200, "activity-body", "ok"⟩⟩

/-! ## Claim theorems -/

/-- C1: for each outbound data request (`get_activities`, `get_athlete`,
`get_activity_by_id`) a token refresh is performed immediately before the
request iff the current time `T` satisfies `T ≥ token_expires_at - 300`;
for `T` strictly below the margin no refresh occurs and the request carries
the unchanged token; when the margin is reached the request is only sent
after the refresh (and with the refreshed token), the refresh POST being the
first event of the call. -/
theorem refresh_margin_invariant (env : Env) (c : StravaClient) (limit : Int)
    (before after : Option Int) (atype : Option String) (page : Int) (aid : String) :
    (countTokenPosts (get_activities env c limit before after atype page).trace
        = (if env.current_time ≥ c.token_expires_at - 300 then 1 else 0)
      ∧ fetchBearers (get_activities env c limit before after atype page).trace
        = (if env.current_time ≥ c.token_expires_at - 300 then
             (if env.tokenResponse.status_code = 200 then
                [env.tokenResponse.access_token] else [])
           else [c.access_token])
      ∧ (env.current_time ≥ c.token_expires_at - 300 →
          (get_activities env c limit before after atype page).trace.head?
            = some .tokenPost))
    ∧ (countTokenPosts (get_athlete env c).trace
        = (if env.current_time ≥ c.token_expires_at - 300 then 1 else 0)
      ∧ fetchBearers (get_athlete env c).trace
        = (if env.current_time ≥ c.token_expires_at - 300 then
             (if env.tokenResponse.status_code = 200 then
                [env.tokenResponse.access_token] else [])
           else [c.access_token])
      ∧ (env.current_time ≥ c.token_expires_at - 300 →
          (get_athlete env c).trace.head? = some .tokenPost))
    ∧ (countTokenPosts (get_activity_by_id env c aid).trace
        = (if env.current_time ≥ c.token_expires_at - 300 then 1 else 0)
      ∧ fetchBearers (get_activity_by_id env c aid).trace
        = (if env.current_time ≥ c.token_expires_at - 300 then
             (if env.tokenResponse.status_code = 200 then
                [env.tokenResponse.access_token] else [])
           else [c.access_token])
      ∧ (env.current_time ≥ c.token_expires_at - 300 →
          (get_activity_by_id env c aid).trace.head? = some .tokenPost)) := by
  unfold get_activities get_athlete get_activity_by_id refresh_access_token_if_needed
  by_cases h1 : env.current_time ≥ c.token_expires_at - 300 <;>
    by_cases h2 : env.tokenResponse.status_code = 200 <;>
      simp [h1, h2, countTokenPosts, fetchBearers] <;>
        constructor <;> split <;> simp [countTokenPosts, fetchBearers]


/-- Witness for C1 at a concrete world: the fresh client refreshes once and
the refresh precedes the data request. -/
theorem refresh_margin_invariant_witness :
    countTokenPosts (get_activities envOkW cW 100 none none none 1).trace = 1
    ∧ (get_activities envOkW cW 100 none none none 1).trace.head?
        = some .tokenPost := by
  have h := refresh_margin_invariant envOkW cW 100 none none none 1 "42"
  exact ⟨by rw [h.1.1]; decide, h.1.2.2 (by decide)⟩

/-- C7: a failed token refresh leaves `access_token`, `refresh_token` and
`token_expires_at` (and every other field) unchanged; a successful refresh
replaces the three credential fields together with the provider's values. -/
theorem refresh_atomic_credentials (env : Env) (c : StravaClient) :
    (env.tokenResponse.status_code ≠ 200 →
      (refresh_access_token_if_needed env c).client = c)
    ∧ (env.tokenResponse.status_code = 200 →
       env.current_time ≥ c.token_expires_at - 300 →
      (refresh_access_token_if_needed env c).client
        = { c with access_token := env.tokenResponse.access_token,
                   refresh_token := env.tokenResponse.refresh_token,
                   token_expires_at := env.tokenResponse.expires_at }) := by
  unfold refresh_access_token_if_needed
  by_cases h1 : env.current_time ≥ c.token_expires_at - 300 <;>
    by_cases h2 : env.tokenResponse.status_code = 200 <;> simp [h1, h2]

/-- Witness for C7: at the concrete worlds, failure leaves the client as
constructed, success installs the provider's three fields. -/
theorem refresh_atomic_credentials_witness :
    (refresh_access_token_if_needed envAuthFailW cW).client = cW
    ∧ (refresh_access_token_if_needed envOkW cW).client
      = { cW with access_token := envOkW.tokenResponse.access_token,
                  refresh_token := envOkW.tokenResponse.refresh_token,
                  token_expires_at := envOkW.tokenResponse.expires_at } :=
  ⟨(refresh_atomic_credentials envAuthFailW cW).1 (by decide),
   (refresh_atomic_credentials envOkW cW).2 (by decide) (by decide)⟩

/-- C8: each of the six client-requiring tools, invoked while the global
client is `None`, raises the `ValueError("Strava client not initialized…")`
with an empty trace (no network call); its Python class differs from the
plain `Exception` used for auth and fetch failures. -/
theorem uninitialized_tools_error (env : Env) (limit year : Int)
    (sd ed aid : String) (atype : Option String) :
    get_recent_activities env none limit = (.error notInitializedError, [])
    ∧ tool_get_activities_by_date_range env none sd ed atype
        = (.error notInitializedError, [])
    ∧ get_all_activities_in_year env none year atype
        = (.error notInitializedError, [])
    ∧ get_available_activity_types env none = (.error notInitializedError, [])
    ∧ get_athlete_profile env none = (.error notInitializedError, [])
    ∧ get_activity_details env none aid = (.error notInitializedError, [])
    ∧ notInitializedError.etype = "ValueError"
    ∧ notInitializedError.etype ≠ "Exception" :=
  ⟨rfl, rfl, rfl, rfl, rfl, rfl, rfl, by decide⟩

/-- Witness for C8 at concrete arguments. -/
theorem uninitialized_tools_error_witness :
    get_recent_activities envOkW none 5 = (.error notInitializedError, [])
    ∧ notInitializedError.etype = "ValueError" :=
  ⟨(uninitialized_tools_error envOkW 5 2024 "2024-01-01" "2024-01-31" "77" none).1,
   (uninitialized_tools_error envOkW 5 2024 "2024-01-01" "2024-01-31" "77" none).2.2.2.2.2.2.1⟩

/-- C10: since `__init__` sets `token_expires_at := 0`, the first data
operation after construction always refreshes first (the refresh POST is
the first event), and any data request it sends carries the token obtained
from the refresh exchange, never the environment-supplied access token. -/
theorem initial_request_always_refreshes (env : Env) (a r ci cs : String)
    (limit : Int) (before after : Option Int) (atype : Option String)
    (page : Int) (aid : String) (h : 0 ≤ env.current_time) :
    ((get_activities env (StravaClient.init a r ci cs) limit before after atype
        page).trace.head? = some .tokenPost
      ∧ fetchBearers (get_activities env (StravaClient.init a r ci cs) limit
          before after atype page).trace
        = (if env.tokenResponse.status_code = 200 then
            [env.tokenResponse.access_token] else []))
    ∧ ((get_athlete env (StravaClient.init a r ci cs)).trace.head?
          = some .tokenPost
      ∧ fetchBearers (get_athlete env (StravaClient.init a r ci cs)).trace
        = (if env.tokenResponse.status_code = 200 then
            [env.tokenResponse.access_token] else []))
    ∧ ((get_activity_by_id env (StravaClient.init a r ci cs) aid).trace.head?
          = some .tokenPost
      ∧ fetchBearers (get_activity_by_id env (StravaClient.init a r ci cs)
          aid).trace
        = (if env.tokenResponse.status_code = 200 then
            [env.tokenResponse.access_token] else [])) := by
  have hc : env.current_time ≥ (StravaClient.init a r ci cs).token_expires_at - 300 := by
    simp only [StravaClient.init]
    omega
  unfold get_activities get_athlete get_activity_by_id refresh_access_token_if_needed
  by_cases h2 : env.tokenResponse.status_code = 200 <;>
    simp [hc, h2, fetchBearers]
  all_goals split_ifs <;> simp [fetchBearers]

/-- Witness for C10: with the all-success world, the freshly constructed
client refreshes first and the data request carries the refreshed token. -/
theorem initial_request_always_refreshes_witness :
    (get_activities envOkW cW 100 none none none 1).trace.head? = some .tokenPost
    ∧ fetchBearers (get_activities envOkW cW 100 none none none 1).trace
      = [envOkW.tokenResponse.access_token] := by
  have h := initial_request_always_refreshes envOkW "envAccess" "envRefresh"
    "id123" "secret456" 100 none none none 1 "42" (by decide)
  exact ⟨h.1.1, by rw [show cW = StravaClient.init "envAccess" "envRefresh" "id123" "secret456" from rfl, h.1.2]; decide⟩



/-- C3 counterexample: a failed token refresh raises a plain `Exception`
(here with the provider body embedded in the message), and a failed data
fetch raises a plain `Exception` as well — the two are not distinguishable
by exception type, only by message. -/
theorem refresh_error_shares_exception_type :
    errOf (refresh_access_token_if_needed envAuthFailW cW).res
      = some ⟨"Exception", "Failed to refresh token: bad refresh body"⟩
    ∧ errType (get_activities envFetchFailW cW 100 none none none 1).res
      = some "Exception"
    ∧ errType (refresh_access_token_if_needed envAuthFailW cW).res
      = errType (get_activities envFetchFailW cW 100 none none none 1).res :=
  ⟨rfl, rfl, rfl⟩

/-- C3 amended: when the token endpoint returns a non-success status while
a refresh is due, a plain `Exception` is raised whose message embeds the
provider response body; exactly one refresh POST is issued (no retry), the
exception propagates out of the data operation, and no data request is
sent. -/
theorem refresh_failure_amended (env : Env) (c : StravaClient) (limit : Int)
    (before after : Option Int) (atype : Option String) (page : Int)
    (hT : env.current_time ≥ c.token_expires_at - 300)
    (hS : env.tokenResponse.status_code ≠ 200) :
    (refresh_access_token_if_needed env c).res
      = .error ⟨"Exception", "Failed to refresh token: " ++ env.tokenResponse.text⟩
    ∧ countTokenPosts (refresh_access_token_if_needed env c).trace = 1
    ∧ (get_activities env c limit before after atype page).res
      = .error ⟨"Exception", "Failed to refresh token: " ++ env.tokenResponse.text⟩
    ∧ countTokenPosts (get_activities env c limit before after atype page).trace = 1
    ∧ countFetches (get_activities env c limit before after atype page).trace = 0 := by
  unfold get_activities refresh_access_token_if_needed
  simp [hT, hS, countTokenPosts, countFetches]

/-- Witness for the amended C3 at the concrete failing world. -/
theorem refresh_failure_amended_witness :
    (refresh_access_token_if_needed envAuthFailW cW).res
      = .error ⟨"Exception",
          "Failed to refresh token: " ++ envAuthFailW.tokenResponse.text⟩
    ∧ countFetches (get_activities envAuthFailW cW 100 none none none 1).trace = 0 := by
  have h := refresh_failure_amended envAuthFailW cW 100 none none none 1
    (by decide) (by decide)
  exact ⟨h.1, h.2.2.2.2⟩

/-- C4 counterexample: on a non-success athlete response, `get_athlete`
does not raise — it returns the parsed error-response body. -/
theorem get_athlete_returns_error_body :
    envFetchFailW.athleteResponse.status_code = 500
    ∧ (get_athlete envFetchFailW cW).res = .ok "athlete-error-body"
    ∧ errType (get_athlete envFetchFailW cW).res = none :=
  ⟨rfl, rfl, rfl⟩

/-- C4 amended: after a valid token was ensured, `get_activities` and
`get_activity_by_id` raise an `Exception` embedding the upstream body when
the upstream status is non-success, while `get_athlete` performs no status
check and returns the parsed response body regardless of status. -/
theorem fetch_error_amended (env : Env) (c : StravaClient) (limit : Int)
    (before after : Option Int) (atype : Option String) (page : Int) (aid : String)
    (hTok : env.tokenResponse.status_code = 200)
    (hAct : (env.activitiesAPI limit page (truthyInt before)
        (truthyInt after)).status_code ≠ 200)
    (hAid : (env.activityAPI aid).status_code ≠ 200) :
    (get_activities env c limit before after atype page).res
      = .error ⟨"Exception", "Failed to fetch activities: "
          ++ (env.activitiesAPI limit page (truthyInt before) (truthyInt after)).text⟩
    ∧ (get_activity_by_id env c aid).res
      = .error ⟨"Exception",
          "Failed to fetch activity: " ++ (env.activityAPI aid).text⟩
    ∧ (get_athlete env c).res = .ok env.athleteResponse.body := by
  unfold get_activities get_activity_by_id get_athlete refresh_access_token_if_needed
  by_cases hT : env.current_time ≥ c.token_expires_at - 300 <;>
    simp [hT, hTok, hAct, hAid]

/-- Witness for the amended C4 at the concrete failing world. -/
theorem fetch_error_amended_witness :
    (get_activities envFetchFailW cW 100 none none none 1).res
      = .error ⟨"Exception", "Failed to fetch activities: "
          ++ (envFetchFailW.activitiesAPI 100 1 (truthyInt none) (truthyInt none)).text⟩
    ∧ (get_athlete envFetchFailW cW).res = .ok envFetchFailW.athleteResponse.body := by
  have h := fetch_error_amended envFetchFailW cW 100 none none none 1 "42"
    (by decide) (by decide) (by decide)
  exact ⟨h.1, h.2.2⟩

/-- C9: whatever the upstream returns, `get_activity_types` returns a list
in which each distinct type value occurs at most once, and the sample it
draws is a single activities request with `per_page = 200`, `page = 1`. -/
theorem activity_types_nodup (env : Env) (c : StravaClient) :
    ∀ l, (get_activity_types env c).res = .ok l →
      l.Nodup
      ∧ fetchPerPages (get_activity_types env c).trace = [200]
      ∧ fetchPages (get_activity_types env c).trace = [1] := by
  intro l hl
  unfold get_activity_types get_activities refresh_access_token_if_needed at hl ⊢
  by_cases hT : env.current_time ≥ c.token_expires_at - 300 <;>
    by_cases hTok : env.tokenResponse.status_code = 200 <;>
      by_cases hA : (env.activitiesAPI 200 1 none none).status_code = 200 <;>
        simp [hT, hTok, hA, truthyInt, truthyStr] at hl ⊢ <;>
          subst hl <;>
            simp [List.nodup_dedup, fetchPerPages, fetchPages]

/-- Witness for C9 at the concrete all-success world: the two "Run"
activities collapse to one type. -/
theorem activity_types_nodup_witness :
    List.Nodup ["Run"]
    ∧ fetchPerPages (get_activity_types envOkW cW).trace = [200] := by
  have h := activity_types_nodup envOkW cW ["Run"] rfl
  exact ⟨h.1, h.2.1⟩

/-- C5: both date-range operations convert inclusive calendar dates to the
half-open `[after, before)` window with one day added to `before`; in
particular start `"2024-01-01"`, end `"2024-01-31"` yield `after` = the
epoch of 2024-01-01T00:00:00 and `before` = the epoch of
2024-02-01T00:00:00, and the two operations delegate with exactly that
window. -/
theorem date_window_conversion (env : Env) (c : StravaClient) (limit max_pages : Int)
    (atype : Option String) :
    (∀ s e y1 m1 d1 y2 m2 d2, parseDate s = some (y1, m1, d1) →
       parseDate e = some (y2, m2, d2) →
       dateWindow env s e
         = some (timestampOfCivil env y1 m1 d1, timestampOfCivil env y2 m2 d2 + 86400))
    ∧ dateWindow env "2024-01-01" "2024-01-31"
        = some (timestampOfCivil env 2024 1 1, timestampOfCivil env 2024 2 1)
    ∧ get_activities_by_date_range env c "2024-01-01" "2024-01-31" limit atype
        = get_activities env c limit (some (timestampOfCivil env 2024 2 1))
            (some (timestampOfCivil env 2024 1 1)) atype 1
    ∧ get_all_activities_by_date_range env c "2024-01-01" "2024-01-31" atype max_pages
        = get_all_pages env (timestampOfCivil env 2024 2 1)
            (timestampOfCivil env 2024 1 1) atype c 1 max_pages.toNat := by
  have hp1 : parseDate "2024-01-01" = some (2024, 1, 1) := by decide
  have hp2 : parseDate "2024-01-31" = some (2024, 1, 31) := by decide
  have hday : daysFromCivil 2024 1 31 + 1 = daysFromCivil 2024 2 1 := by decide
  have hB : timestampOfCivil env 2024 1 31 + 86400 = timestampOfCivil env 2024 2 1 := by
    unfold timestampOfCivil
    push_cast
    omega
  have hW : dateWindow env "2024-01-01" "2024-01-31"
      = some (timestampOfCivil env 2024 1 1, timestampOfCivil env 2024 2 1) := by
    unfold dateWindow dateToEpoch
    rw [hp1, hp2]
    simp [hB]
  refine ⟨?_, hW, ?_, ?_⟩
  · intro s e y1 m1 d1 y2 m2 d2 h1 h2
    unfold dateWindow dateToEpoch
    rw [h1, h2]
    rfl
  · simp [get_activities_by_date_range, hW]
  · simp [get_all_activities_by_date_range, hW]

/-- Witness for C5 at concrete dates. -/
theorem date_window_conversion_witness :
    dateWindow envOkW "2024-03-01" "2024-03-05"
      = some (timestampOfCivil envOkW 2024 3 1, timestampOfCivil envOkW 2024 3 5 + 86400)
    ∧ dateWindow envOkW "2024-01-01" "2024-01-31"
      = some (timestampOfCivil envOkW 2024 1 1, timestampOfCivil envOkW 2024 2 1) := by
  have h := date_window_conversion envOkW cW 100 10 none
  exact ⟨h.1 "2024-03-01" "2024-03-05" 2024 3 1 2024 3 5 (by decide) (by decide), h.2.1⟩


lemma countFetches_append (tr1 tr2 : List Event) :
    countFetches (tr1 ++ tr2) = countFetches tr1 + countFetches tr2 := by
  induction tr1 with
  | nil => simp [countFetches]
  | cons e tr ih => cases e <;> simp [countFetches, ih] <;> omega

lemma get_activities_fetch_bound (env : Env) (c : StravaClient) (limit : Int)
    (before after : Option Int) (atype : Option String) (page : Int) :
    countFetches (get_activities env c limit before after atype page).trace ≤ 1 := by
  unfold get_activities refresh_access_token_if_needed
  by_cases hT : env.current_time ≥ c.token_expires_at - 300 <;>
    by_cases hTok : env.tokenResponse.status_code = 200 <;>
      simp [hT, hTok, countFetches] <;> split <;> simp [countFetches]

lemma get_activities_ok (env : Env) (c : StravaClient) (limit : Int)
    (before after : Option Int) (page : Int)
    (hTok : env.tokenResponse.status_code = 200)
    (hA : (env.activitiesAPI limit page (truthyInt before)
        (truthyInt after)).status_code = 200) :
    (get_activities env c limit before after none page).res
      = .ok (env.activitiesAPI limit page (truthyInt before) (truthyInt after)).body
    ∧ countFetches (get_activities env c limit before after none page).trace = 1 := by
  unfold get_activities refresh_access_token_if_needed
  by_cases hT : env.current_time ≥ c.token_expires_at - 300 <;>
    simp [hT, hTok, hA, countFetches, truthyStr]

lemma get_all_pages_fuel_bound (env : Env) (before after : Int)
    (atype : Option String) :
    ∀ (fuel : Nat) (page : Int) (c : StravaClient),
      countFetches (get_all_pages env before after atype c page fuel).trace ≤ fuel := by
  intro fuel
  induction fuel with
  | zero => intro page c; simp [get_all_pages, countFetches]
  | succ f ih =>
    intro page c
    have hb := get_activities_fetch_bound env c 100 (some before) (some after) none page
    unfold get_all_pages
    rcases hres : (get_activities env c 100 (some before) (some after) none page).res
      with e | acts <;> simp [hres]
    · omega
    · split_ifs <;> simp [countFetches_append] <;>
        first
        | omega
        | (have hrec := ih (page + 1)
             (get_activities env c 100 (some before) (some after) none page).client
           omega)

lemma range_flatMap_succ {b : Type} (n : Nat) (f : Nat → List b) :
    (List.range (n + 1)).flatMap f = f 0 ++ (List.range n).flatMap (fun i => f (i + 1)) := by
  simp [List.range_succ_eq_map, List.flatMap_map, Function.comp, Nat.succ_eq_add_one]

lemma get_all_pages_char (env : Env) (before after : Int) (atype : Option String)
    (hTok : env.tokenResponse.status_code = 200)
    (hA : ∀ p : Int, rawPageStatus env before after p = 200) :
    ∀ (fuel : Nat) (page : Int) (c : StravaClient),
      (1 ≤ fuel → 1 ≤ countFetches (get_all_pages env before after atype c page fuel).trace)
      ∧ (get_all_pages env before after atype c page fuel).res
        = .ok ((List.range
            (countFetches (get_all_pages env before after atype c page fuel).trace)).flatMap
              fun i => filteredPage env before after atype (page + (i : Int)))
      ∧ (∀ i : Nat,
          i + 1 < countFetches (get_all_pages env before after atype c page fuel).trace →
           rawPage env before after (page + (i : Int)) ≠ []
           ∧ 100 ≤ (filteredPage env before after atype (page + (i : Int))).length)
      ∧ (countFetches (get_all_pages env before after atype c page fuel).trace < fuel →
           rawPage env before after
               (page + ((countFetches
                 (get_all_pages env before after atype c page fuel).trace - 1 : Nat) : Int))
             = []
           ∨ (filteredPage env before after atype
               (page + ((countFetches
                 (get_all_pages env before after atype c page fuel).trace - 1 : Nat) : Int))).length
             < 100) := by
  intro fuel
  induction fuel with
  | zero =>
    intro page c
    simp [get_all_pages, countFetches]
  | succ f ih =>
    intro page c
    have hga := get_activities_ok env c 100 (some before) (some after) page hTok (hA page)
    have hres : (get_activities env c 100 (some before) (some after) none page).res
        = .ok (rawPage env before after page) := hga.1
    obtain ⟨ih1, ih2, ih3, ih4⟩ := ih (page + 1)
      (get_activities env c 100 (some before) (some after) none page).client
    have hfp : ∀ p : Int, (match truthyStr atype with
        | some t => (rawPage env before after p).filter fun a => decide (a.type = some t)
        | none => rawPage env before after p) = filteredPage env before after atype p :=
      fun _ => rfl
    unfold get_all_pages
    simp only [hres, hfp]
    by_cases hemp : rawPage env before after page = []
    · have hfpe : filteredPage env before after atype page = [] := by
        cases hts : truthyStr atype <;> simp [filteredPage, hts, hemp]
      simp [hemp, hga.2, hfpe, List.range_succ]
    · by_cases hlen : (filteredPage env before after atype page).length < 100
      · simp [hemp, hlen, hga.2, List.range_succ]
      · simp only [List.isEmpty_iff, hemp, hlen, if_false]
        rw [countFetches_append, hga.2]
        have hstep : ∀ i : Nat,
            filteredPage env before after atype (page + ((i : Int) + 1))
              = filteredPage env before after atype (page + 1 + (i : Int)) := by
          intro i
          congr 1
          ring
        refine ⟨fun _ => by omega, ?_, ?_, ?_⟩
        · rw [ih2, Nat.add_comm 1 _, range_flatMap_succ]
          simp only [Except.map, Nat.cast_zero, add_zero, Nat.cast_add, Nat.cast_one, hstep]
        · intro i hi
          cases i with
          | zero =>
            simp only [Nat.cast_zero, add_zero]
            exact ⟨hemp, by omega⟩
          | succ j =>
            have h3 := ih3 j (by omega)
            have hidx : page + ((j + 1 : Nat) : Int) = page + 1 + (j : Int) := by
              push_cast
              ring
            rw [hidx]
            exact h3
        · intro h4
          have hn1 := ih1 (by omega)
          have h44 := ih4 (by omega)
          have hidx : page + ((1 + countFetches (get_all_pages env before after atype
              (get_activities env c 100 (some before) (some after) none page).client
              (page + 1) f).trace - 1 : Nat) : Int)
              = page + 1 + ((countFetches (get_all_pages env before after atype
                (get_activities env c 100 (some before) (some after) none page).client
                (page + 1) f).trace - 1 : Nat) : Int) := by
            omega
          rw [hidx]
          exact h44


/-- C2 counterexample: with a type filter, the loop stops on the length of
the FILTERED page. Page 1 of `envC2` is a full raw page of 100 (so, per the
claim, fetching must continue), yet only one fetch is issued and 40
activities are returned; the loop the spec describes (break conditions on
the raw page) would issue 2 fetches and return 80. -/
theorem pagination_stops_on_filtered_short_page :
    (rawPage envC2 0 0 1).length = 100
    ∧ okLength (get_all_activities_by_date_range envC2 cW "2024-01-01" "2024-12-31"
        (some "Run") 10).res = some 40
    ∧ countFetches (get_all_activities_by_date_range envC2 cW "2024-01-01" "2024-12-31"
        (some "Run") 10).trace = 1
    ∧ (spec_list_all_activities envC2 0 0 (some "Run") 1 10).1.length = 80
    ∧ (spec_list_all_activities envC2 0 0 (some "Run") 1 10).2 = 2 := by
  decide

/-- C2 amended: `get_all_activities_by_date_range` issues at most
`max_pages` page fetches; when every endpoint succeeds it returns the
concatenation, in original API order, of the type-filtered pages it
fetched, it never continues past a page whose raw body is empty or whose
filtered length is below 100, and when it stops before `max_pages` the last
page fetched was raw-empty or filtered-short. -/
theorem paginated_fetch_amended (env : Env) (c : StravaClient)
    (start_date end_date : String) (atype : Option String) (max_pages : Int) :
    countFetches (get_all_activities_by_date_range env c start_date end_date atype
        max_pages).trace ≤ max_pages.toNat
    ∧ (env.tokenResponse.status_code = 200 →
       ∀ a b : Int, dateWindow env start_date end_date = some (a, b) →
       (∀ p : Int, rawPageStatus env b a p = 200) →
       (get_all_activities_by_date_range env c start_date end_date atype max_pages).res
         = .ok ((List.range (countFetches (get_all_activities_by_date_range env c
               start_date end_date atype max_pages).trace)).flatMap
             fun i => filteredPage env b a atype (1 + (i : Int)))
       ∧ (∀ i : Nat, i + 1 < countFetches (get_all_activities_by_date_range env c
             start_date end_date atype max_pages).trace →
            rawPage env b a (1 + (i : Int)) ≠ []
            ∧ 100 ≤ (filteredPage env b a atype (1 + (i : Int))).length)
       ∧ (countFetches (get_all_activities_by_date_range env c start_date end_date
             atype max_pages).trace < max_pages.toNat →
            rawPage env b a (1 + ((countFetches (get_all_activities_by_date_range env c
                start_date end_date atype max_pages).trace - 1 : Nat) : Int)) = []
            ∨ (filteredPage env b a atype
                (1 + ((countFetches (get_all_activities_by_date_range env c
                  start_date end_date atype max_pages).trace - 1 : Nat) : Int))).length
              < 100)) := by
  unfold get_all_activities_by_date_range
  rcases hW : dateWindow env start_date end_date with _ | ⟨a0, b0⟩ <;> simp only [hW]
  · constructor
    · simp [countFetches]
    · intro _ a b hab
      exact absurd hab (by simp)
  · constructor
    · exact get_all_pages_fuel_bound env b0 a0 atype max_pages.toNat 1 c
    · intro hTok a b hab hA
      obtain ⟨rfl, rfl⟩ : a0 = a ∧ b0 = b := by simpa using hab
      obtain ⟨h1, h2, h3, h4⟩ :=
        get_all_pages_char env b0 a0 atype hTok hA max_pages.toNat 1 c
      exact ⟨h2, h3, h4⟩

/-- Witness for the amended C2 at the concrete C6 world: four pages are
fetched and the result is the concatenation of the four (unfiltered)
pages. -/
theorem paginated_fetch_amended_witness :
    countFetches (get_all_activities_by_date_range envC6 cW "2024-01-01" "2024-12-31"
        none 10).trace ≤ (10 : Int).toNat
    ∧ (get_all_activities_by_date_range envC6 cW "2024-01-01" "2024-12-31" none 10).res
      = .ok ((List.range 4).flatMap
          fun i => filteredPage envC6 1735689600 1704067200 none (1 + (i : Int))) := by
  have h := paginated_fetch_amended envC6 cW "2024-01-01" "2024-12-31" none 10
  have hA : ∀ p : Int, rawPageStatus envC6 1735689600 1704067200 p = 200 := by
    intro p
    simp only [rawPageStatus, envC6]
    split_ifs <;> rfl
  have h2 := (h.2 (by decide) 1704067200 1735689600 (by decide) hA).1
  have hn : countFetches (get_all_activities_by_date_range envC6 cW "2024-01-01"
      "2024-12-31" none 10).trace = 4 := by decide
  rw [hn] at h2
  exact ⟨h.1, h2⟩

set_option maxRecDepth 8000 in
/-- C6: three full pages of 100 followed by a page of 40 yield 340
activities in 4 fetches, and the loop stops there. -/
theorem pagination_scenario_340 :
    okLength (get_all_activities_by_date_range envC6 cW "2024-01-01" "2024-12-31"
        none 10).res = some 340
    ∧ countFetches (get_all_activities_by_date_range envC6 cW "2024-01-01" "2024-12-31"
        none 10).trace = 4 := by
  decide

end Strava
